import Mathlib

/-!
Verification of the derivation engine of the wisp-flow personal finance
tracker, shallowly embedded from src/utils/calculations.ts (types from
src/types/models.ts).  JavaScript numbers are modelled by exact rationals,
and the string-valued enums IncomeFrequency / IncomeType are modelled by
raw strings so that the default branch of the frequency switch (which fires
on unrecognized values) is expressible.  A JavaScript Map is modelled by an
association list with JS insertion-order semantics.
-/

namespace WispFlow

/-- The TS enum IncomeFrequency has the string values monthly, weekly,
yearly, one_time; the switch in convertToMonthly also has a default branch,
so frequencies are modelled as raw strings. -/
abbrev IncomeFrequency := String

/-- The TS enum IncomeType has the string values salary, freelance,
side_hustle, investment, passive, other; modelled as raw strings. -/
abbrev IncomeType := String

/-- IncomeSource from models.ts, restricted to the fields the calculation
functions read (id, name, createdAt, updatedAt are never read by them). -/
structure IncomeSource where
  amount : ℚ
  type : IncomeType
  frequency : IncomeFrequency
  isActive : Bool
deriving DecidableEq

/-- MonthlyIncome from models.ts, restricted to the fields the calculation
functions read (id, year, month, incomeSourceId, name, isRecurring,
createdAt, updatedAt are never read by them). -/
structure MonthlyIncome where
  amount : ℚ
  type : IncomeType
  isActive : Bool
deriving DecidableEq

/-- One element of the incomeBreakdown list: type, amount, percentage. -/
structure BreakdownEntry where
  type : IncomeType
  amount : ℚ
  percentage : ℚ
deriving DecidableEq

/-- One element of the projections list: years, total, saved. -/
structure Projection where
  years : ℚ
  total : ℚ
  saved : ℚ
deriving DecidableEq

/-- CalculationResults from models.ts. -/
structure CalculationResults where
  monthlyIncome : ℚ
  yearlyIncome : ℚ
  monthlySavings : ℚ
  yearlySavings : ℚ
  projections : List Projection
  incomeBreakdown : List BreakdownEntry
deriving DecidableEq

/-- WhatIfScenario from models.ts. -/
structure WhatIfScenario where
  savingsPercentage : ℚ
  monthlyIncome : ℚ
  monthlySavings : ℚ
  projection5Years : ℚ
  projection10Years : ℚ
deriving DecidableEq

/-- convertToMonthly from calculations.ts: switch over the frequency string
with a default branch returning 0. -/
def convertToMonthly (amount : ℚ) (frequency : IncomeFrequency) : ℚ :=
  if frequency = "monthly" then amount
  else if frequency = "weekly" then amount * 52 / 12
  else if frequency = "yearly" then amount / 12
  else if frequency = "one_time" then 0
  else 0

/-- convertToYearly from calculations.ts. -/
def convertToYearly (amount : ℚ) (frequency : IncomeFrequency) : ℚ :=
  convertToMonthly amount frequency * 12

/-- calculateMonthlyIncome from calculations.ts: filter to active sources,
then reduce adding each source's monthly equivalent, starting from 0. -/
def calculateMonthlyIncome (sources : List IncomeSource) : ℚ :=
  (sources.filter (fun source => source.isActive)).foldl
    (fun total source => total + convertToMonthly source.amount source.frequency) 0

/-- calculateYearlyIncome from calculations.ts. -/
def calculateYearlyIncome (sources : List IncomeSource) : ℚ :=
  calculateMonthlyIncome sources * 12

/-- JS Map.set on an association list: overwrite in place when the key is
already present (keeping insertion order), otherwise append at the end. -/
def mapSet (m : List (IncomeType × ℚ)) (k : IncomeType) (v : ℚ) :
    List (IncomeType × ℚ) :=
  match m with
  | [] => [(k, v)]
  | (k0, v0) :: rest =>
      if k0 = k then (k, v) :: rest else (k0, v0) :: mapSet rest k v

/-- The body of the forEach loop building the breakdown map:
current = breakdown.get(type) or 0, then set(type, current + amount). -/
def addToBreakdown (m : List (IncomeType × ℚ)) (ty : IncomeType) (amt : ℚ) :
    List (IncomeType × ℚ) :=
  mapSet m ty (((m.lookup ty).getD 0) + amt)

/-- calculateIncomeBreakdown from calculations.ts: filter to active sources,
take their total monthly income, group monthly amounts by type in a Map,
then emit one entry per type with its percentage of the total (0 when the
total is not positive). -/
def calculateIncomeBreakdown (sources : List IncomeSource) :
    List BreakdownEntry :=
  let activeSources := sources.filter (fun s => s.isActive)
  let totalMonthly := calculateMonthlyIncome activeSources
  let breakdown := activeSources.foldl
    (fun m source =>
      addToBreakdown m source.type (convertToMonthly source.amount source.frequency)) []
  breakdown.map (fun e =>
    { type := e.1
      amount := e.2
      percentage := if totalMonthly > 0 then e.2 / totalMonthly * 100 else 0 })

/-- calculateMonthlySavings from calculations.ts. -/
def calculateMonthlySavings (monthlyIncome savingsPercentage : ℚ) : ℚ :=
  monthlyIncome * savingsPercentage / 100

/-- calculateYearlySavings from calculations.ts. -/
def calculateYearlySavings (monthlyIncome savingsPercentage : ℚ) : ℚ :=
  calculateMonthlySavings monthlyIncome savingsPercentage * 12

/-- calculateSavingsProjection from calculations.ts:
currentSavings + alreadySaved + yearlySavings * years, for any years. -/
def calculateSavingsProjection (currentSavings alreadySaved monthlyIncome
    savingsPercentage years : ℚ) : ℚ :=
  let yearlySavings := calculateYearlySavings monthlyIncome savingsPercentage
  let totalSaved := yearlySavings * years
  currentSavings + alreadySaved + totalSaved

/-- calculateMonthlyIncomeFromData from calculations.ts: filter to active
entries and sum their amounts directly. -/
def calculateMonthlyIncomeFromData (monthlyIncomes : List MonthlyIncome) : ℚ :=
  (monthlyIncomes.filter (fun income => income.isActive)).foldl
    (fun total income => total + income.amount) 0

/-- calculateYearlyIncomeFromData from calculations.ts: loop month = 1..12,
adding the monthly aggregation of yearData.get(month) or [] (a JS Map is
modelled as an association list, Map.get as List.lookup). -/
def calculateYearlyIncomeFromData
    (yearData : List (ℕ × List MonthlyIncome)) : ℚ :=
  (List.range' 1 12).foldl
    (fun total month =>
      total + calculateMonthlyIncomeFromData ((yearData.lookup month).getD [])) 0

/-- calculateIncomeBreakdownFromData from calculations.ts: same grouping as
calculateIncomeBreakdown but amounts are taken directly from the entries. -/
def calculateIncomeBreakdownFromData (monthlyIncomes : List MonthlyIncome) :
    List BreakdownEntry :=
  let activeIncomes := monthlyIncomes.filter (fun i => i.isActive)
  let totalMonthly := calculateMonthlyIncomeFromData activeIncomes
  let breakdown := activeIncomes.foldl
    (fun m income => addToBreakdown m income.type income.amount) []
  breakdown.map (fun e =>
    { type := e.1
      amount := e.2
      percentage := if totalMonthly > 0 then e.2 / totalMonthly * 100 else 0 })

/-- calculateResultsFromMonthlyData from calculations.ts. -/
def calculateResultsFromMonthlyData
    (currentMonthIncomes : List MonthlyIncome)
    (yearData : List (ℕ × List MonthlyIncome))
    (currentSavings alreadySaved savingsPercentage : ℚ) : CalculationResults :=
  let monthlyIncome := calculateMonthlyIncomeFromData currentMonthIncomes
  let yearlyIncome := calculateYearlyIncomeFromData yearData
  let monthlySavings := calculateMonthlySavings monthlyIncome savingsPercentage
  let yearlySavings := calculateYearlySavings monthlyIncome savingsPercentage
  let projectionYears : List ℚ := [1, 3, 5, 10]
  let projections := projectionYears.map (fun years =>
    { years := years
      total := calculateSavingsProjection currentSavings alreadySaved
        monthlyIncome savingsPercentage years
      saved := yearlySavings * years } : ℚ → Projection)
  let incomeBreakdown := calculateIncomeBreakdownFromData currentMonthIncomes
  { monthlyIncome := monthlyIncome
    yearlyIncome := yearlyIncome
    monthlySavings := monthlySavings
    yearlySavings := yearlySavings
    projections := projections
    incomeBreakdown := incomeBreakdown }

/-- calculateResults from calculations.ts (the source-definitions mode). -/
def calculateResults (sources : List IncomeSource)
    (currentSavings alreadySaved savingsPercentage : ℚ) : CalculationResults :=
  let monthlyIncome := calculateMonthlyIncome sources
  let yearlyIncome := calculateYearlyIncome sources
  let monthlySavings := calculateMonthlySavings monthlyIncome savingsPercentage
  let yearlySavings := calculateYearlySavings monthlyIncome savingsPercentage
  let projectionYears : List ℚ := [1, 3, 5, 10]
  let projections := projectionYears.map (fun years =>
    { years := years
      total := calculateSavingsProjection currentSavings alreadySaved
        monthlyIncome savingsPercentage years
      saved := yearlySavings * years } : ℚ → Projection)
  let incomeBreakdown := calculateIncomeBreakdown sources
  { monthlyIncome := monthlyIncome
    yearlyIncome := yearlyIncome
    monthlySavings := monthlySavings
    yearlySavings := yearlySavings
    projections := projections
    incomeBreakdown := incomeBreakdown }

/-- createWhatIfScenario from calculations.ts. -/
def createWhatIfScenario (monthlyIncome savingsPercentage currentSavings
    alreadySaved : ℚ) : WhatIfScenario :=
  let monthlySavings := calculateMonthlySavings monthlyIncome savingsPercentage
  { savingsPercentage := savingsPercentage
    monthlyIncome := monthlyIncome
    monthlySavings := monthlySavings
    projection5Years := calculateSavingsProjection currentSavings alreadySaved
      monthlyIncome savingsPercentage 5
    projection10Years := calculateSavingsProjection currentSavings alreadySaved
      monthlyIncome savingsPercentage 10 }

/-- createWhatIfScenarios from calculations.ts, with the default percentage
list of the source. -/
def createWhatIfScenarios (monthlyIncome currentSavings alreadySaved : ℚ)
    (percentages : List ℚ := [10, 15, 20, 30, 40, 50]) : List WhatIfScenario :=
  percentages.map (fun percentage =>
    createWhatIfScenario monthlyIncome percentage currentSavings alreadySaved)

/-- calculateGoalProgress from calculations.ts. -/
def calculateGoalProgress (current target : ℚ) : ℚ :=
  if target = 0 then 0
  else min (current / target * 100) 100

/-- calculateMonthsToGoal from calculations.ts; the JS Infinity sentinel for
an unreachable goal is modelled by none, and Math.ceil by Int.ceil. -/
def calculateMonthsToGoal (currentAmount targetAmount monthlySavings : ℚ) :
    Option ℤ :=
  if monthlySavings = 0 then none
  else
    let remaining := targetAmount - currentAmount
    if remaining ≤ 0 then some 0
    else some ⌈remaining / monthlySavings⌉

/-- Sum of the values of an association list (the amounts held in the
breakdown Map). -/
def sumValues (m : List (IncomeType × ℚ)) : ℚ := (m.map Prod.snd).sum

/-- Materialization of an income source into a per-month entry, as in the
hypothesis of the equivalence claim: the amount is the monthly equivalent
and the active flag is carried over unchanged. -/
def materializeSource (s : IncomeSource) : MonthlyIncome :=
  { amount := convertToMonthly s.amount s.frequency
    type := s.type
    isActive := s.isActive }

/-! ### Helper lemmas -/

/-- A foldl that only accumulates a sum equals the initial value plus the
sum of the mapped list. -/
lemma foldl_add_eq_sum {α : Type} (f : α → ℚ) (l : List α) (init : ℚ) :
    l.foldl (fun total x => total + f x) init = init + (l.map f).sum := by
  induction l generalizing init with
  | nil => simp
  | cons a t ih => simp [ih, add_assoc]

/-- calculateMonthlyIncome as a sum over the active sources. -/
lemma calculateMonthlyIncome_eq_sum (sources : List IncomeSource) :
    calculateMonthlyIncome sources
      = ((sources.filter (fun s => s.isActive)).map
          (fun s => convertToMonthly s.amount s.frequency)).sum := by
  simp [calculateMonthlyIncome, foldl_add_eq_sum]

/-- calculateMonthlyIncomeFromData as a sum over the active entries. -/
lemma calculateMonthlyIncomeFromData_eq_sum (incomes : List MonthlyIncome) :
    calculateMonthlyIncomeFromData incomes
      = ((incomes.filter (fun i => i.isActive)).map (fun i => i.amount)).sum := by
  simp [calculateMonthlyIncomeFromData, foldl_add_eq_sum]

/-- One step of the breakdown grouping adds exactly the grouped amount to
the total held in the map. -/
lemma sumValues_addToBreakdown (m : List (IncomeType × ℚ)) (ty : IncomeType)
    (amt : ℚ) : sumValues (addToBreakdown m ty amt) = sumValues m + amt := by
  induction m with
  | nil => simp [addToBreakdown, mapSet, sumValues]
  | cons p t ih =>
      obtain ⟨k0, v0⟩ := p
      by_cases h : k0 = ty
      · subst h
        simp [addToBreakdown, mapSet, sumValues, List.lookup]
        ring
      · have hbeq : (ty == k0) = false := beq_eq_false_iff_ne.mpr (Ne.symm h)
        have hlk : List.lookup ty ((k0, v0) :: t) = List.lookup ty t := by
          simp [List.lookup, hbeq]
        have hms : addToBreakdown ((k0, v0) :: t) ty amt
            = (k0, v0) :: addToBreakdown t ty amt := by
          simp [addToBreakdown, mapSet, h, hlk]
        rw [hms]
        simp only [sumValues, List.map_cons, List.sum_cons] at ih ⊢
        rw [ih]
        ring

/-- The whole breakdown grouping fold preserves the total amount. -/
lemma sumValues_foldl {α : Type} (ty : α → IncomeType) (am : α → ℚ)
    (l : List α) (m0 : List (IncomeType × ℚ)) :
    sumValues (l.foldl (fun m x => addToBreakdown m (ty x) (am x)) m0)
      = sumValues m0 + (l.map am).sum := by
  induction l generalizing m0 with
  | nil => simp
  | cons a t ih => simp [ih, sumValues_addToBreakdown, add_assoc]

/-- Summing value-over-total-times-100 over a list scales its sum. -/
lemma sum_map_div_mul (l : List ℚ) (t : ℚ) :
    (l.map (fun v => v / t * 100)).sum = l.sum / t * 100 := by
  induction l with
  | nil => simp
  | cons a tl ih => simp [ih]; ring

/-- Filtering the active sources twice equals filtering once, so the total
recomputed inside calculateIncomeBreakdown equals the total of the original
list. -/
lemma calculateMonthlyIncome_filter (sources : List IncomeSource) :
    calculateMonthlyIncome (sources.filter (fun s => s.isActive))
      = calculateMonthlyIncome sources := by
  simp [calculateMonthlyIncome, List.filter_filter]

/-- Same for the per-month-entry mode. -/
lemma calculateMonthlyIncomeFromData_filter (incomes : List MonthlyIncome) :
    calculateMonthlyIncomeFromData (incomes.filter (fun i => i.isActive))
      = calculateMonthlyIncomeFromData incomes := by
  simp [calculateMonthlyIncomeFromData, List.filter_filter]

/-- For any grouped map whose values sum to a positive total, the emitted
percentages sum to 100. -/
lemma percentages_sum_eq (B : List (IncomeType × ℚ)) (t : ℚ) (ht : 0 < t)
    (hsum : sumValues B = t) :
    ((B.map (fun e => ({ type := e.1
                         amount := e.2
                         percentage := if t > 0 then e.2 / t * 100 else 0 } :
                       BreakdownEntry))).map (fun e => e.percentage)).sum
      = 100 := by
  have hne : t ≠ 0 := ne_of_gt ht
  calc ((B.map (fun e => ({ type := e.1
                            amount := e.2
                            percentage := if t > 0 then e.2 / t * 100 else 0 } :
                          BreakdownEntry))).map (fun e => e.percentage)).sum
      = ((B.map Prod.snd).map (fun v => v / t * 100)).sum := by
        simp [List.map_map, Function.comp_def, if_pos ht]
    _ = (B.map Prod.snd).sum / t * 100 := sum_map_div_mul _ t
    _ = t / t * 100 := by rw [show (B.map Prod.snd).sum = t from hsum]
    _ = 100 := by field_simp

/-- Every entry emitted from a grouped map carries the percentage formula
of the source. -/
lemma mem_breakdown_map {B : List (IncomeType × ℚ)} {t : ℚ}
    {e : BreakdownEntry}
    (he : e ∈ B.map (fun p => ({ type := p.1
                                 amount := p.2
                                 percentage :=
                                   if t > 0 then p.2 / t * 100 else 0 } :
                               BreakdownEntry))) :
    e.percentage = if t > 0 then e.amount / t * 100 else 0 := by
  obtain ⟨p, hp, rfl⟩ := List.mem_map.mp he
  simp

/-- The grouping fold of calculateIncomeBreakdown preserves the total
monthly income of the active sources. -/
lemma sumValues_breakdown_fold (sources : List IncomeSource) :
    sumValues ((sources.filter (fun s => s.isActive)).foldl
        (fun m s =>
          addToBreakdown m s.type (convertToMonthly s.amount s.frequency)) [])
      = calculateMonthlyIncome sources := by
  have h := sumValues_foldl (fun s : IncomeSource => s.type)
    (fun s : IncomeSource => convertToMonthly s.amount s.frequency)
    (sources.filter (fun s => s.isActive)) []
  simpa [sumValues, calculateMonthlyIncome_eq_sum] using h

/-- The grouping fold of calculateIncomeBreakdownFromData preserves the
total monthly income of the active entries. -/
lemma sumValues_breakdownFromData_fold (incomes : List MonthlyIncome) :
    sumValues ((incomes.filter (fun i => i.isActive)).foldl
        (fun m i => addToBreakdown m i.type i.amount) [])
      = calculateMonthlyIncomeFromData incomes := by
  have h := sumValues_foldl (fun i : MonthlyIncome => i.type)
    (fun i : MonthlyIncome => i.amount)
    (incomes.filter (fun i => i.isActive)) []
  simpa [sumValues, calculateMonthlyIncomeFromData_eq_sum] using h

/-! ### Theorems for the claims -/

/-- C2: in both breakdown aggregators the percentages sum to 100 when the
total monthly amount of the active records is strictly positive, every
percentage is 0 when that total is 0 (no division by zero is possible), and
each emitted category percentage equals its amount divided by the total
times 100 whenever the total is positive. -/
theorem incomeBreakdown_percentages_spec (sources : List IncomeSource)
    (incomes : List MonthlyIncome) :
    (0 < calculateMonthlyIncome sources →
      ((calculateIncomeBreakdown sources).map (fun e => e.percentage)).sum
        = 100) ∧
    (calculateMonthlyIncome sources = 0 →
      ∀ e ∈ calculateIncomeBreakdown sources, e.percentage = 0) ∧
    (∀ e ∈ calculateIncomeBreakdown sources,
      e.percentage = if calculateMonthlyIncome sources > 0
        then e.amount / calculateMonthlyIncome sources * 100 else 0) ∧
    (0 < calculateMonthlyIncomeFromData incomes →
      ((calculateIncomeBreakdownFromData incomes).map
          (fun e => e.percentage)).sum = 100) ∧
    (calculateMonthlyIncomeFromData incomes = 0 →
      ∀ e ∈ calculateIncomeBreakdownFromData incomes, e.percentage = 0) ∧
    (∀ e ∈ calculateIncomeBreakdownFromData incomes,
      e.percentage = if calculateMonthlyIncomeFromData incomes > 0
        then e.amount / calculateMonthlyIncomeFromData incomes * 100
        else 0) := by
  have hmem : ∀ e ∈ calculateIncomeBreakdown sources,
      e.percentage = if calculateMonthlyIncome sources > 0
        then e.amount / calculateMonthlyIncome sources * 100 else 0 := by
    intro e he
    simp only [calculateIncomeBreakdown, calculateMonthlyIncome_filter] at he
    exact mem_breakdown_map he
  have hmemD : ∀ e ∈ calculateIncomeBreakdownFromData incomes,
      e.percentage = if calculateMonthlyIncomeFromData incomes > 0
        then e.amount / calculateMonthlyIncomeFromData incomes * 100
        else 0 := by
    intro e he
    simp only [calculateIncomeBreakdownFromData,
      calculateMonthlyIncomeFromData_filter] at he
    exact mem_breakdown_map he
  refine ⟨?_, ?_, hmem, ?_, ?_, hmemD⟩
  · intro h
    have hsum := sumValues_breakdown_fold sources
    simp only [calculateIncomeBreakdown, calculateMonthlyIncome_filter]
    exact percentages_sum_eq _ _ h hsum
  · intro h e he
    rw [hmem e he, h]
    norm_num
  · intro h
    have hsum := sumValues_breakdownFromData_fold incomes
    simp only [calculateIncomeBreakdownFromData,
      calculateMonthlyIncomeFromData_filter]
    exact percentages_sum_eq _ _ h hsum
  · intro h e he
    rw [hmemD e he, h]
    norm_num

/-- Witness for C2 on a one-source list and a one-entry list, each with a
positive total. -/
theorem incomeBreakdown_percentages_spec_witness :
    ((calculateIncomeBreakdown
        [{ amount := 100, type := "salary", frequency := "monthly",
           isActive := true }]).map (fun e => e.percentage)).sum = 100 ∧
    ((calculateIncomeBreakdownFromData
        [{ amount := 200, type := "salary", isActive := true }]).map
        (fun e => e.percentage)).sum = 100 := by
  constructor
  · exact (incomeBreakdown_percentages_spec
      [{ amount := 100, type := "salary", frequency := "monthly",
         isActive := true }] []).1
      (by norm_num [calculateMonthlyIncome_eq_sum, convertToMonthly])
  · exact (incomeBreakdown_percentages_spec []
      [{ amount := 200, type := "salary", isActive := true }]).2.2.2.1
      (by norm_num [calculateMonthlyIncomeFromData_eq_sum])

/-- C1: convertToMonthly returns the amount unchanged for monthly, amount
times 52 over 12 for weekly, amount over 12 for yearly, 0 for one_time, and
0 for any unrecognized frequency string, without any error. -/
theorem convertToMonthly_spec (a : ℚ) (f : IncomeFrequency) :
    convertToMonthly a "monthly" = a ∧
    convertToMonthly a "weekly" = a * 52 / 12 ∧
    convertToMonthly a "yearly" = a / 12 ∧
    convertToMonthly a "one_time" = 0 ∧
    (f ≠ "monthly" → f ≠ "weekly" → f ≠ "yearly" → f ≠ "one_time" →
      convertToMonthly a f = 0) := by
  refine ⟨by simp [convertToMonthly], by simp [convertToMonthly],
    by simp [convertToMonthly], by simp [convertToMonthly], ?_⟩
  intro h1 h2 h3 h4
  simp [convertToMonthly, h1, h2, h3, h4]

/-- Witness for C1 at amount 7 and the unrecognized frequency string
bogus. -/
theorem convertToMonthly_spec_witness : convertToMonthly 7 "bogus" = 0 :=
  (convertToMonthly_spec 7 "bogus").2.2.2.2 (by decide) (by decide)
    (by decide) (by decide)

/-- C3: calculateMonthsToGoal returns the unreachable sentinel (none, the
model of the JS Infinity) when monthlySavings is 0, 0 when the remaining
amount is nonpositive, the ceiling of remaining over monthlySavings
otherwise, and takes the three concrete values of the claim. -/
theorem calculateMonthsToGoal_spec (cur tgt ms : ℚ) :
    (ms = 0 → calculateMonthsToGoal cur tgt ms = none) ∧
    (ms ≠ 0 → tgt - cur ≤ 0 → calculateMonthsToGoal cur tgt ms = some 0) ∧
    (ms ≠ 0 → 0 < tgt - cur →
      calculateMonthsToGoal cur tgt ms = some ⌈(tgt - cur) / ms⌉) ∧
    calculateMonthsToGoal 0 1000 0 = none ∧
    calculateMonthsToGoal 1000 1000 100 = some 0 ∧
    calculateMonthsToGoal 0 1000 250 = some 4 := by
  refine ⟨?_, ?_, ?_, ?_, ?_, ?_⟩
  · intro h; simp [calculateMonthsToGoal, h]
  · intro h hle; simp [calculateMonthsToGoal, h, hle]
  · intro h hlt; simp [calculateMonthsToGoal, h, not_le.mpr hlt]
  · norm_num [calculateMonthsToGoal]
  · norm_num [calculateMonthsToGoal]
  · norm_num [calculateMonthsToGoal]

/-- Witness for C3 at current 0, target 70, monthlySavings 7. -/
theorem calculateMonthsToGoal_spec_witness :
    calculateMonthsToGoal 0 70 7 = some 10 := by
  have h := (calculateMonthsToGoal_spec 0 70 7).2.2.1 (by norm_num) (by norm_num)
  rw [h]; norm_num

/-- C4 counterexample: at years = -1 (which is ≤ 0) with monthlyIncome 1200
and savingsPercentage 10, calculateSavingsProjection returns -1440, not the
baseline sum 0 + 0: the code never clamps negative years. -/
theorem calculateSavingsProjection_counterexample :
    (-1 : ℚ) ≤ 0 ∧
    calculateSavingsProjection 0 0 1200 10 (-1) = -1440 ∧
    calculateSavingsProjection 0 0 1200 10 (-1) ≠ 0 + 0 := by
  refine ⟨by norm_num, ?_, ?_⟩ <;>
    norm_num [calculateSavingsProjection, calculateYearlySavings,
      calculateMonthlySavings]

/-- C4 amended: calculateSavingsProjection always equals currentSavings +
alreadySaved + (monthlyIncome * savingsPercentage / 100 * 12) * years, for
every years including negative ones, and at years = 0 it equals the
baseline sum currentSavings + alreadySaved. -/
theorem calculateSavingsProjection_spec (cs sav mi sp years : ℚ) :
    calculateSavingsProjection cs sav mi sp years
      = cs + sav + (mi * sp / 100 * 12) * years ∧
    calculateSavingsProjection cs sav mi sp 0 = cs + sav := by
  constructor <;>
    simp [calculateSavingsProjection, calculateYearlySavings,
      calculateMonthlySavings]

/-- C6: calculateGoalProgress is 0 when target is 0, otherwise the minimum
of current over target times 100 and 100; on nonnegative inputs it is
clamped at 100 and never negative, and it takes the concrete values of the
claim. -/
theorem calculateGoalProgress_spec (current target : ℚ)
    (hc : 0 ≤ current) (ht : 0 ≤ target) :
    (target = 0 → calculateGoalProgress current target = 0) ∧
    (target ≠ 0 → calculateGoalProgress current target
        = min (current / target * 100) 100) ∧
    calculateGoalProgress current target ≤ 100 ∧
    0 ≤ calculateGoalProgress current target ∧
    calculateGoalProgress 50 100 = 50 ∧
    calculateGoalProgress 150 100 = 100 ∧
    (∀ x : ℚ, calculateGoalProgress x 0 = 0) := by
  refine ⟨?_, ?_, ?_, ?_, ?_, ?_, ?_⟩
  · intro h; simp [calculateGoalProgress, h]
  · intro h; simp [calculateGoalProgress, h]
  · unfold calculateGoalProgress
    split
    · norm_num
    · exact min_le_right _ _
  · unfold calculateGoalProgress
    split
    · exact le_refl 0
    · rename_i h
      have htpos : 0 < target := lt_of_le_of_ne ht (Ne.symm h)
      exact le_min (by positivity) (by norm_num)
  · norm_num [calculateGoalProgress]
  · norm_num [calculateGoalProgress]
  · intro x; simp [calculateGoalProgress]

/-- C5: the composed result of calculateResultsFromMonthlyData has exactly
the projection horizons 1, 3, 5, 10 years, each paired with saved =
yearlySavingsTarget times years (no baseline included), and its breakdown
is computed from the current month's entries only. -/
theorem calculateResultsFromMonthlyData_spec (incomes : List MonthlyIncome)
    (yearData : List (ℕ × List MonthlyIncome)) (cs sav sp : ℚ) :
    ((calculateResultsFromMonthlyData incomes yearData cs sav sp).projections.map
        (fun p => p.years)) = [1, 3, 5, 10] ∧
    (∀ p ∈ (calculateResultsFromMonthlyData incomes yearData
        cs sav sp).projections,
      p.saved = calculateYearlySavings (calculateMonthlyIncomeFromData incomes)
          sp * p.years) ∧
    (calculateResultsFromMonthlyData incomes yearData cs sav sp).incomeBreakdown
      = calculateIncomeBreakdownFromData incomes := by
  refine ⟨?_, ?_, rfl⟩
  · simp [calculateResultsFromMonthlyData]
  · intro p hp
    simp only [calculateResultsFromMonthlyData] at hp
    obtain ⟨y, hy, rfl⟩ := List.mem_map.mp hp
    simp

/-- Witness for C5 on empty data with baseline 5 + 7 and percentage 10,
at the first projection element. -/
theorem calculateResultsFromMonthlyData_spec_witness :
    ({ years := 1, total := 12, saved := 0 } : Projection).saved
      = calculateYearlySavings (calculateMonthlyIncomeFromData []) 10
          * ({ years := 1, total := 12, saved := 0 } : Projection).years :=
  (calculateResultsFromMonthlyData_spec [] [] 5 7 10).2.1
    { years := 1, total := 12, saved := 0 }
    (by norm_num [calculateResultsFromMonthlyData,
      calculateMonthlyIncomeFromData, calculateYearlyIncomeFromData,
      calculateSavingsProjection, calculateYearlySavings,
      calculateMonthlySavings])

/-- C7: aggregating income-source definitions directly agrees with
aggregating the per-month entries materialized from them (monthly amount
normalized, active flag carried over). -/
theorem aggregation_modes_equivalent (sources : List IncomeSource) :
    calculateMonthlyIncomeFromData (sources.map materializeSource)
      = calculateMonthlyIncome sources := by
  rw [calculateMonthlyIncomeFromData_eq_sum, calculateMonthlyIncome_eq_sum]
  rw [List.filter_map]
  simp [materializeSource, Function.comp_def, List.map_map]

/-- C8: the yearly-from-entries aggregation is the sum over months 1..12 of
the monthly-from-entries aggregation of that month's entries, a month
absent from the map contributes 0, and an empty month contributes 0;
no input can fault. -/
theorem calculateYearlyIncomeFromData_spec
    (yearData : List (ℕ × List MonthlyIncome)) :
    calculateYearlyIncomeFromData yearData
      = ((List.range' 1 12).map (fun month =>
          calculateMonthlyIncomeFromData ((yearData.lookup month).getD []))).sum ∧
    (∀ month : ℕ, yearData.lookup month = none →
      calculateMonthlyIncomeFromData ((yearData.lookup month).getD []) = 0) ∧
    calculateMonthlyIncomeFromData [] = 0 := by
  refine ⟨?_, ?_, ?_⟩
  · have h := foldl_add_eq_sum
      (fun month =>
        calculateMonthlyIncomeFromData ((yearData.lookup month).getD []))
      (List.range' 1 12) 0
    simpa [calculateYearlyIncomeFromData] using h
  · intro month h
    simp [h, calculateMonthlyIncomeFromData]
  · simp [calculateMonthlyIncomeFromData]

/-- Witness for C8: the empty year map, whose month 5 is absent and
contributes 0. -/
theorem calculateYearlyIncomeFromData_spec_witness :
    calculateMonthlyIncomeFromData
        (((([] : List (ℕ × List MonthlyIncome))).lookup 5).getD []) = 0 :=
  (calculateYearlyIncomeFromData_spec []).2.1 5 rfl

/-- C9: createWhatIfScenarios yields one scenario per candidate percentage,
the scenario at position i being an independent createWhatIfScenario call
with that percentage substituted, and on percentages [10, 20] with
monthlyIncome 5000 and zero baseline the monthly savings are 500 and 1000
and the 5-year projections 30000 and 60000. -/
theorem createWhatIfScenarios_spec (mi cs sav : ℚ) (ps : List ℚ) :
    (createWhatIfScenarios mi cs sav ps).length = ps.length ∧
    (∀ i : Fin ps.length,
      (createWhatIfScenarios mi cs sav ps).get? i
        = some (createWhatIfScenario mi (ps.get i) cs sav)) ∧
    ((createWhatIfScenarios 5000 0 0 [10, 20]).map
        (fun s => (s.monthlySavings, s.projection5Years))
      = [(500, 30000), (1000, 60000)]) := by
  refine ⟨?_, ?_, ?_⟩
  · simp [createWhatIfScenarios]
  · intro i
    simp [createWhatIfScenarios, List.get?_map, List.get?_eq_get i.2]
  · norm_num [createWhatIfScenarios, createWhatIfScenario,
      calculateMonthlySavings, calculateSavingsProjection,
      calculateYearlySavings]

/-- C10: in both Results Composers, every projection element satisfies
total minus saved = currentSavings + alreadySaved: the projected total is
always the caller-supplied baseline plus the savings-only component. -/
theorem projections_baseline_invariant (sources : List IncomeSource)
    (incomes : List MonthlyIncome)
    (yearData : List (ℕ × List MonthlyIncome)) (cs sav sp : ℚ) :
    (∀ p ∈ (calculateResultsFromMonthlyData incomes yearData
        cs sav sp).projections,
      p.total - p.saved = cs + sav) ∧
    (∀ p ∈ (calculateResults sources cs sav sp).projections,
      p.total - p.saved = cs + sav) := by
  constructor
  · intro p hp
    simp only [calculateResultsFromMonthlyData] at hp
    obtain ⟨y, hy, rfl⟩ := List.mem_map.mp hp
    simp [calculateSavingsProjection]
  · intro p hp
    simp only [calculateResults] at hp
    obtain ⟨y, hy, rfl⟩ := List.mem_map.mp hp
    simp [calculateSavingsProjection]

/-- Witness for C10 on empty data with baseline 5 + 7, at the first
projection element of each composer. -/
theorem projections_baseline_invariant_witness :
    ({ years := 1, total := 12, saved := 0 } : Projection).total
        - ({ years := 1, total := 12, saved := 0 } : Projection).saved
      = 5 + 7 :=
  (projections_baseline_invariant [] [] [] 5 7 10).1
    { years := 1, total := 12, saved := 0 }
    (by norm_num [calculateResultsFromMonthlyData,
      calculateMonthlyIncomeFromData, calculateYearlyIncomeFromData,
      calculateSavingsProjection, calculateYearlySavings,
      calculateMonthlySavings])

/-- Witness for C6 at current 50, target 100. -/
theorem calculateGoalProgress_spec_witness :
    calculateGoalProgress 50 100 ≤ 100 ∧ 0 ≤ calculateGoalProgress 50 100 :=
  ⟨(calculateGoalProgress_spec 50 100 (by norm_num) (by norm_num)).2.2.1,
   (calculateGoalProgress_spec 50 100 (by norm_num) (by norm_num)).2.2.2.1⟩

end WispFlow
